import Mathlib

/-!
Verification of the A-iq model-conversion scripts.

Shallow embedding of the three Python conversion scripts
(`scripts/convert_siglip_to_coreml.py`,
`scripts/model_conversion/convert_deepfake_detector.py`,
`scripts/model_conversion/convert_xceptionnet_deepfake.py`).

The scripts are straight-line procedures whose observable behaviour is the
process exit status, the lines printed to standard output (or the interpreter
traceback on an uncaught exception), and the metadata embedded in the saved
model package.  The embedding models:

* the runtime environment (`Env`): which third-party libraries are importable,
  whether each candidate weight URL downloads and loads successfully, and
  whether the post-save smoke test raises;
* the observable event stream (`Ev`): printed lines, interpreter tracebacks,
  weight-download attempts, and pipeline phase markers (`Step`);
* each script body as a function from `Env` to an exit status paired with its
  event stream;
* the Core ML model metadata object (`MLModelMeta`) and each `finalize_model`;
* the numeric preprocessing transforms (Core ML `ImageType` scale/bias) over
  exact rationals;
* the wrapper modules whose `forward` applies softmax to the logits of the
  wrapped model.
-/

/-- Phases of the conversion pipeline, as listed in the spec overview:
fetch weights, wrap in a shim, trace, convert, attach metadata, save,
smoke-test. -/
inductive Step where
  | fetch
  | wrap
  | traceModel
  | convertModel
  | annotate
  | saveModel
  | smokeTest
deriving DecidableEq, Repr

/-- Observable events of a script run: a line printed to stdout, an
interpreter traceback for an uncaught exception, a weight-download attempt
for a URL, a logged download failure for a URL, and a pipeline phase
marker. -/
inductive Ev where
  | out (s : String)
  | err (s : String)
  | tryUrl (u : String)
  | urlFail (u : String)
  | step (s : Step)
deriving DecidableEq, Repr

/-- Runtime environment a script executes in: availability of each
third-party library, success of each candidate weight URL, and whether the
post-save smoke test raises an exception. -/
structure Env where
  coremltools : Bool
  numpy : Bool
  torch : Bool
  pillow : Bool
  transformers : Bool
  torchvision : Bool
  timm : Bool
  urlOk : String → Bool
  smokeTestThrows : Bool

/-- The pipeline phase markers occurring in an event stream, in order. -/
def stepsOf (log : List Ev) : List Step :=
  log.filterMap fun e =>
    match e with
    | Ev.step s => some s
    | _ => none

/-- The URLs for which a download attempt was started, in order. -/
def attemptedOf (log : List Ev) : List String :=
  log.filterMap fun e =>
    match e with
    | Ev.tryUrl u => some u
    | _ => none

/-- The separator line printed by every script banner: the equals sign
repeated 60 times. -/
def banner60 : Ev :=
  Ev.out (String.mk (List.replicate 60 '='))

namespace Siglip

/-- MODEL_ID constant of convert_siglip_to_coreml.py. -/
def MODEL_ID : String := "Ateeqq/ai-vs-human-image-detector"

/-- OUTPUT_NAME constant of convert_siglip_to_coreml.py. -/
def OUTPUT_NAME : String := "AIDetector"

/-- INPUT_SIZE constant of convert_siglip_to_coreml.py. -/
def INPUT_SIZE : Nat := 224

/-- The save path built in main as an f-string from OUTPUT_NAME. -/
def output_path : String := OUTPUT_NAME ++ ".mlpackage"

/-- First module missing among the top-level imports of
convert_siglip_to_coreml.py, in import order (coremltools, numpy, torch,
PIL, transformers); none when all import successfully. -/
def missingImport (e : Env) : Option String :=
  if !e.coremltools then some "coremltools"
  else if !e.numpy then some "numpy"
  else if !e.torch then some "torch"
  else if !e.pillow then some "PIL"
  else if !e.transformers then some "transformers"
  else none

/-- All top-level imports of convert_siglip_to_coreml.py succeed. -/
def importsOk (e : Env) : Bool :=
  e.coremltools && e.numpy && e.torch && e.pillow && e.transformers

/-- Events of the verification block at the end of main: the reload and
predict call is wrapped in try/except; an exception is printed as a warning
and execution falls through. -/
def verifyLog (throws : Bool) : List Ev :=
  [Ev.out "Verifying model..."] ++
  (if throws then
    [Ev.out "Verification warning: <exception>",
     Ev.out "Model may still work - compile and test in Xcode."]
  else
    [Ev.out "Test prediction: <result>",
     Ev.out "Model verification PASSED!"])

/-- Events of the body of main in convert_siglip_to_coreml.py, given that the
top-level imports all succeeded.  The inner `import coremltools` re-check at
the start of main can only take its success branch here, since a missing
coremltools already aborted the process at module load. -/
def mainLog (e : Env) : List Ev :=
  [banner60, Ev.out "SigLIP to Core ML Converter", banner60,
   Ev.out "coremltools version: <version>",
   Ev.step Step.fetch,
   Ev.out ("Downloading model: " ++ MODEL_ID),
   Ev.out "Model loaded: <num_labels> classes",
   Ev.out "Labels: <id2label>",
   Ev.out "Tracing model...",
   Ev.out "Input shape: <shape>",
   Ev.out "Input range: <range>",
   Ev.step Step.wrap,
   Ev.step Step.traceModel,
   Ev.out "Output shape: <shape>",
   Ev.out "Output sum (should be ~1.0): <sum>",
   Ev.step Step.convertModel,
   Ev.out "Creating classifier model...",
   Ev.out "Class labels for classifier: <class_labels>",
   Ev.step Step.annotate,
   Ev.out "Finalizing model with Float16 precision...",
   Ev.step Step.saveModel,
   Ev.out ("Saving model to: " ++ output_path),
   banner60, Ev.out "SUCCESS!", banner60,
   Ev.out ("Model saved to: " ++ output_path),
   Ev.out "Class labels: <class_labels>",
   Ev.out "To compile for deployment:",
   Ev.out ("  xcrun coremlcompiler compile " ++ output_path ++ " ./"),
   Ev.out "Then copy AIDetector.mlmodelc to:",
   Ev.out "  A-IQ/Resources/AIDetector.mlmodelc",
   Ev.step Step.smokeTest] ++ verifyLog e.smokeTestThrows

/-- Whole-process behaviour of convert_siglip_to_coreml.py: a failing
top-level import aborts with an interpreter traceback and exit status 1;
otherwise main runs to completion and the process exits 0 (a smoke-test
exception is caught inside main and does not change the status). -/
def run (e : Env) : Nat × List Ev :=
  match missingImport e with
  | some m => (1, [Ev.err ("ModuleNotFoundError: No module named " ++ m)])
  | none => (0, mainLog e)

end Siglip

namespace Deepfake

/-- MODEL_ID constant of convert_deepfake_detector.py. -/
def MODEL_ID : String := "prithivMLmods/deepfake-detector-model-v1"

/-- OUTPUT_NAME constant of convert_deepfake_detector.py. -/
def OUTPUT_NAME : String := "DeepfakeDetector"

/-- INPUT_SIZE constant of convert_deepfake_detector.py. -/
def INPUT_SIZE : Nat := 512

/-- The save path built in main as an f-string from OUTPUT_NAME. -/
def output_path : String := OUTPUT_NAME ++ ".mlpackage"

/-- First module missing among the top-level imports of
convert_deepfake_detector.py, in import order. -/
def missingImport (e : Env) : Option String :=
  if !e.coremltools then some "coremltools"
  else if !e.numpy then some "numpy"
  else if !e.torch then some "torch"
  else if !e.pillow then some "PIL"
  else if !e.transformers then some "transformers"
  else none

/-- All top-level imports of convert_deepfake_detector.py succeed. -/
def importsOk (e : Env) : Bool :=
  e.coremltools && e.numpy && e.torch && e.pillow && e.transformers

/-- Events of the verification block at the end of main of
convert_deepfake_detector.py. -/
def verifyLog (throws : Bool) : List Ev :=
  [Ev.out "Verifying model..."] ++
  (if throws then
    [Ev.out "Verification warning: <exception>",
     Ev.out "Model may still work - compile and test in Xcode."]
  else
    [Ev.out "Test prediction: <result>",
     Ev.out "Model verification PASSED!"])

/-- Events of the body of main in convert_deepfake_detector.py, given that
the top-level imports all succeeded. -/
def mainLog (e : Env) : List Ev :=
  [banner60, Ev.out "Deepfake Detector (SigLIP) to Core ML Converter", banner60,
   Ev.out "coremltools version: <version>",
   Ev.step Step.fetch,
   Ev.out ("Downloading model: " ++ MODEL_ID),
   Ev.out "Model loaded: <num_labels> classes",
   Ev.out "Labels: <id2label>",
   Ev.out "Tracing model...",
   Ev.out "Input shape: <shape>",
   Ev.out "Input range: <range>",
   Ev.step Step.wrap,
   Ev.step Step.traceModel,
   Ev.out "Output shape: <shape>",
   Ev.out "Output sum (should be ~1.0): <sum>",
   Ev.step Step.convertModel,
   Ev.out "Converting to Core ML...",
   Ev.out "Class labels: <class_labels>",
   Ev.step Step.annotate,
   Ev.out "Finalizing model...",
   Ev.step Step.saveModel,
   Ev.out ("Saving model to: " ++ output_path),
   banner60, Ev.out "SUCCESS!", banner60,
   Ev.out ("Model saved to: " ++ output_path),
   Ev.out "Class labels: <class_labels>",
   Ev.out "To compile for deployment:",
   Ev.out ("  xcrun coremlcompiler compile " ++ output_path ++ " ./"),
   Ev.out "Then copy DeepfakeDetector.mlmodelc to:",
   Ev.out "  A-IQ/Resources/DeepfakeDetector.mlmodelc",
   Ev.out "Model size: <size> MB",
   Ev.step Step.smokeTest] ++ verifyLog e.smokeTestThrows

/-- Whole-process behaviour of convert_deepfake_detector.py. -/
def run (e : Env) : Nat × List Ev :=
  match missingImport e with
  | some m => (1, [Ev.err ("ModuleNotFoundError: No module named " ++ m)])
  | none => (0, mainLog e)

end Deepfake

/-- Backbone architecture actually instantiated by
create_xceptionnet_model: the timm Xception when timm imports, else the
torchvision InceptionV3 fallback. -/
inductive BaseArch where
  | timmXception
  | inceptionV3
deriving DecidableEq, Repr

/-- The model object flowing through convert_xceptionnet_deepfake.py: its
backbone plus the URL of successfully loaded deepfake weights, if any
(none means the model still carries only its ImageNet-pretrained
baseline weights). -/
structure XModel where
  base : BaseArch
  deepfakeWeights : Option String
deriving DecidableEq, Repr

namespace Xception

/-- OUTPUT_NAME constant of convert_xceptionnet_deepfake.py. -/
def OUTPUT_NAME : String := "DeepfakeDetector"

/-- INPUT_SIZE constant of convert_xceptionnet_deepfake.py. -/
def INPUT_SIZE : Nat := 299

/-- The save path built in main as an f-string from OUTPUT_NAME. -/
def output_path : String := OUTPUT_NAME ++ ".mlpackage"

/-- The weight_urls list of download_pretrained_weights. -/
def weight_urls : List String :=
  ["https://github.com/kaushikram31/deepfake-detection-XceptionNet/raw/main/models/xception_ff.pth"]

/-- First module missing among the top-level imports of
convert_xceptionnet_deepfake.py (coremltools, numpy, torch, PIL); timm and
torchvision are imported later, inside create_xceptionnet_model. -/
def missingImport (e : Env) : Option String :=
  if !e.coremltools then some "coremltools"
  else if !e.numpy then some "numpy"
  else if !e.torch then some "torch"
  else if !e.pillow then some "PIL"
  else none

/-- All top-level imports of convert_xceptionnet_deepfake.py succeed. -/
def importsOk (e : Env) : Bool :=
  e.coremltools && e.numpy && e.torch && e.pillow

/-- create_xceptionnet_model: import timm and build the pretrained Xception;
on ImportError fall back to torchvision InceptionV3 with a printed notice.
Returns none when the fallback import itself fails (that ImportError is
raised inside the except handler and is not caught anywhere). -/
def create_xceptionnet_model (e : Env) : Option (XModel × List Ev) :=
  if e.timm then
    some (⟨BaseArch.timmXception, none⟩,
      [Ev.out "Creating XceptionNet model...",
       Ev.out "Model created with <n> parameters"])
  else if e.torchvision then
    some (⟨BaseArch.inceptionV3, none⟩,
      [Ev.out "Creating XceptionNet model...",
       Ev.out "timm not available, using torchvision Inception as fallback"])
  else none

/-- Warning block printed by download_pretrained_weights after every
candidate URL has failed. -/
def downloadWarning : List Ev :=
  [Ev.out "WARNING: Could not download pretrained deepfake weights.",
   Ev.out "Using ImageNet pretrained XceptionNet as baseline.",
   Ev.out "For best results, manually download weights from:",
   Ev.out "  - https://github.com/kaushikram31/deepfake-detection-XceptionNet",
   Ev.out "  - https://github.com/HongguLiu/Deepfake-Detection",
   Ev.out "Proceeding with ImageNet pretrained model..."]

/-- Body of one loop iteration of download_pretrained_weights: download the
URL, load the state dict and apply it to the model; any exception is
represented by the error branch. -/
def tryLoadUrl (urlOk : String → Bool) (m : XModel) (u : String) :
    Except String XModel :=
  if urlOk u then Except.ok { m with deepfakeWeights := some u }
  else Except.error "<exception>"

/-- download_pretrained_weights: walk the candidate URLs in order; the first
successful download returns immediately with the loaded model; an exception
for a URL is caught, logged, and the loop continues; when the list is
exhausted the warning block is printed and the unchanged baseline model is
returned. -/
def download_pretrained_weights (urlOk : String → Bool) (m : XModel) :
    List String → XModel × List Ev
  | [] => (m, downloadWarning)
  | u :: rest =>
    match tryLoadUrl urlOk m u with
    | Except.ok m2 =>
      (m2, [Ev.tryUrl u,
            Ev.out "Successfully loaded pretrained deepfake detection weights!"])
    | Except.error _ =>
      let r := download_pretrained_weights urlOk m rest
      (r.1, Ev.tryUrl u :: Ev.urlFail u :: r.2)

/-- Events of the verification block at the end of main of
convert_xceptionnet_deepfake.py. -/
def verifyLog (throws : Bool) : List Ev :=
  [Ev.out "Verifying model..."] ++
  (if throws then
    [Ev.out "Verification warning: <exception>",
     Ev.out "Model may still work - compile and test in Xcode."]
  else
    [Ev.out "Test prediction: <result>",
     Ev.out "  Real probability: <p0>",
     Ev.out "  Fake probability: <p1>",
     Ev.out "Model verification PASSED!"])

/-- Events of main from tracing onwards (after the model has been created
and the weight download resolved). -/
def tailLog (e : Env) : List Ev :=
  [Ev.out "Tracing model...",
   Ev.step Step.wrap,
   Ev.out "Input shape: <shape>",
   Ev.step Step.traceModel,
   Ev.out "Output shape: <shape>",
   Ev.out "Output sum (should be ~1.0): <sum>",
   Ev.step Step.convertModel,
   Ev.out "Converting to Core ML...",
   Ev.step Step.annotate,
   Ev.out "Finalizing model...",
   Ev.step Step.saveModel,
   Ev.out ("Saving model to: " ++ output_path),
   banner60, Ev.out "SUCCESS!", banner60,
   Ev.out ("Model saved to: " ++ output_path),
   Ev.out "To compile for deployment:",
   Ev.out ("  xcrun coremlcompiler compile " ++ output_path ++ " ./"),
   Ev.out "Then copy DeepfakeDetector.mlmodelc to:",
   Ev.out "  A-IQ/Resources/DeepfakeDetector.mlmodelc",
   Ev.out "Model size: <size> MB",
   Ev.step Step.smokeTest] ++ verifyLog e.smokeTestThrows

/-- Whole-process behaviour of convert_xceptionnet_deepfake.py: a failing
top-level import aborts with a traceback and status 1; a missing timm falls
back to torchvision inside create_xceptionnet_model, and only when that
fallback import also fails does the process abort; otherwise main runs to
completion and exits 0. -/
def run (e : Env) : Nat × List Ev :=
  match missingImport e with
  | some m => (1, [Ev.err ("ModuleNotFoundError: No module named " ++ m)])
  | none =>
    let hdr := [banner60,
                Ev.out "XceptionNet Deepfake Detector to Core ML Converter",
                banner60,
                Ev.out "coremltools version: <version>",
                Ev.step Step.fetch]
    match create_xceptionnet_model e with
    | none =>
      (1, hdr ++ [Ev.out "Creating XceptionNet model...",
                  Ev.err "ModuleNotFoundError: No module named torchvision"])
    | some (m, clog) =>
      let dl := download_pretrained_weights e.urlOk m weight_urls
      (0, hdr ++ clog ++ [Ev.out "Setting up pretrained weights..."] ++ dl.2
            ++ tailLog e)

end Xception

/-- A Python dict assignment d[k] = v on a string-keyed dict modelled as an
association list: replace the value at an existing key, else append the new
entry (insertion order). -/
def dictSet (d : List (String × String)) (k v : String) :
    List (String × String) :=
  if d.any (fun p => p.1 == k) then
    d.map fun p => if p.1 = k then (k, v) else p
  else d ++ [(k, v)]

/-- A Python dict read d[k] (first matching entry). -/
def dictGet (d : List (String × String)) (k : String) : Option String :=
  match d with
  | [] => none
  | p :: t => if p.1 = k then some p.2 else dictGet t k

/-- The mutable attributes of a coremltools MLModel that the scripts set:
the four documented metadata fields plus the user_defined_metadata dict. -/
structure MLModelMeta where
  author : String
  license : String
  short_description : String
  version : String
  user_defined_metadata : List (String × String)
deriving DecidableEq, Repr

/-- An MLModel as returned by ct.convert, before any metadata is set. -/
def freshMLModel : MLModelMeta :=
  { author := "", license := "", short_description := "", version := "",
    user_defined_metadata := [] }

/-- finalize_model of convert_siglip_to_coreml.py: set author, license,
short_description and version, then write class_labels, source_model and
input_size into user_defined_metadata. -/
def Siglip.finalize_model (mlmodel : MLModelMeta) (class_labels : List String) :
    MLModelMeta :=
  { mlmodel with
    author := "A-IQ App",
    license := "Apache 2.0",
    short_description :=
      "AI-generated image detector (SigLIP architecture). " ++
      "Trained on modern generators: Midjourney v6.1, Flux 1.1 Pro, " ++
      "Stable Diffusion 3.5, GPT-4o. Accuracy: 99.23%.",
    version := "2.0.0",
    user_defined_metadata :=
      dictSet (dictSet (dictSet mlmodel.user_defined_metadata
        "class_labels" (String.intercalate "," class_labels))
        "source_model" Siglip.MODEL_ID)
        "input_size" (toString Siglip.INPUT_SIZE) }

/-- finalize_model of convert_deepfake_detector.py. -/
def Deepfake.finalize_model (mlmodel : MLModelMeta) (class_labels : List String) :
    MLModelMeta :=
  { mlmodel with
    author := "A-IQ App",
    license := "Apache 2.0",
    short_description :=
      "Deepfake/face-swap detector (SigLIP architecture). " ++
      "Fine-tuned for binary deepfake image classification. " ++
      "Input: 512x512 face crop. Accuracy: ~94%.",
    version := "1.0.0",
    user_defined_metadata :=
      dictSet (dictSet (dictSet mlmodel.user_defined_metadata
        "class_labels" (String.intercalate "," class_labels))
        "source_model" Deepfake.MODEL_ID)
        "input_size" (toString Deepfake.INPUT_SIZE) }

/-- finalize_model of convert_xceptionnet_deepfake.py: it takes no label
list, hard-codes class_labels to "Real,Fake", and writes training_data,
input_size and output_format; it writes no source_model entry and the
script defines no model-identifier constant at all. -/
def Xception.finalize_model (mlmodel : MLModelMeta) : MLModelMeta :=
  { mlmodel with
    author := "A-IQ App",
    license := "Research use",
    short_description :=
      "Deepfake/face-swap detector (XceptionNet architecture). " ++
      "Trained on FaceForensics++ dataset. " ++
      "Input: 299x299 face crop. Output: [real_prob, fake_prob].",
    version := "1.0.0",
    user_defined_metadata :=
      dictSet (dictSet (dictSet (dictSet mlmodel.user_defined_metadata
        "class_labels" "Real,Fake")
        "training_data" "FaceForensics++")
        "input_size" (toString Xception.INPUT_SIZE))
        "output_format" "[real_probability, fake_probability]" }

/-- The class-label list built in both SigLIP scripts as the comprehension
over range(len(id2label)) of id2label, with id2label modelled as a function
on class indices and n its size. -/
def class_labels_from (id2label : Nat → String) (n : Nat) : List String :=
  (List.range n).map id2label

/-- Pixel transform a Core ML ImageType input applies to channel c: the
(shared) scale times the pixel value plus the per-channel bias entry. -/
def applyImageType (scale : ℚ) (bias : List ℚ) (c : Nat) (p : ℚ) : ℚ :=
  scale * p + bias.getD c 0

/-- Scale argument of the ct.ImageType in create_classifier_model of
convert_siglip_to_coreml.py. -/
def Siglip.scale : ℚ := 1 / 127.5

/-- Bias argument of the ct.ImageType in create_classifier_model of
convert_siglip_to_coreml.py. -/
def Siglip.bias : List ℚ := [-1.0, -1.0, -1.0]

/-- Scale argument of the ct.ImageType in convert_to_coreml of
convert_deepfake_detector.py. -/
def Deepfake.scale : ℚ := 1 / 127.5

/-- Bias argument of the ct.ImageType in convert_to_coreml of
convert_deepfake_detector.py. -/
def Deepfake.bias : List ℚ := [-1.0, -1.0, -1.0]

/-- The SigLIP preprocessing both scripts cite in their comments:
(pixel / 255 - 0.5) / 0.5. -/
def siglipPreprocess (p : ℚ) : ℚ := (p / 255 - 0.5) / 0.5

/-- Scale argument of the ct.ImageType in convert_to_coreml of
convert_xceptionnet_deepfake.py: a single value shared by all channels,
using 0.226 as a stand-in for the three ImageNet stds. -/
def Xception.scale : ℚ := 1 / (255 * 0.226)

/-- Bias argument of the ct.ImageType in convert_to_coreml of
convert_xceptionnet_deepfake.py: per-channel -mean/std. -/
def Xception.bias : List ℚ := [-0.485 / 0.229, -0.456 / 0.224, -0.406 / 0.225]

/-- Exact per-channel ImageNet normalization (pixel / 255 - mean_c) / std_c
with the means 0.485, 0.456, 0.406 and stds 0.229, 0.224, 0.225 named in
the script comment; stated for comparison with the transform the code
actually installs. -/
def imagenetExactNorm (c : Nat) (p : ℚ) : ℚ :=
  (p / 255 - ([0.485, 0.456, 0.406] : List ℚ).getD c 0) /
    ([0.229, 0.224, 0.225] : List ℚ).getD c 1

/-- torch.nn.functional.softmax along the last axis of a logits vector,
with the exponential abstracted as a parameter (torch computes the real
exponential; every property proved below needs only its strict
positivity). -/
def softmax (eexp : ℚ → ℚ) (xs : List ℚ) : List ℚ :=
  xs.map fun x => eexp x / (xs.map eexp).sum

/-- The wrapped pretrained classifier: its only observable is the logits
vector it produces for an input tensor. -/
structure ImageModel (α : Type) where
  logits : α → List ℚ

/-- SigLIPWrapper of convert_siglip_to_coreml.py. -/
structure SigLIPWrapper (α : Type) where
  model : ImageModel α

/-- forward of SigLIPWrapper: softmax of the wrapped model logits. -/
def SigLIPWrapper.forward {α : Type} (w : SigLIPWrapper α) (eexp : ℚ → ℚ)
    (pixel_values : α) : List ℚ :=
  softmax eexp (w.model.logits pixel_values)

/-- DeepfakeWrapper of convert_deepfake_detector.py. -/
structure DeepfakeWrapper (α : Type) where
  model : ImageModel α

/-- forward of DeepfakeWrapper: softmax of the wrapped model logits. -/
def DeepfakeWrapper.forward {α : Type} (w : DeepfakeWrapper α) (eexp : ℚ → ℚ)
    (pixel_values : α) : List ℚ :=
  softmax eexp (w.model.logits pixel_values)

/-- XceptionWrapper of convert_xceptionnet_deepfake.py. -/
structure XceptionWrapper (α : Type) where
  model : ImageModel α

/-- forward of XceptionWrapper: softmax of the wrapped model logits. -/
def XceptionWrapper.forward {α : Type} (w : XceptionWrapper α) (eexp : ℚ → ℚ)
    (x : α) : List ℚ :=
  softmax eexp (w.model.logits x)

/-! Helper lemmas. -/

theorem dictGet_setMap (d : List (String × String)) (k v : String)
    (h : (d.any fun p => p.1 == k) = true) :
    dictGet (d.map fun p => if p.1 = k then (k, v) else p) k = some v := by
  induction d with
  | nil => simp at h
  | cons p t ih =>
    by_cases ha : p.1 = k
    · simp [dictGet, ha]
    · have ht : (t.any fun p => p.1 == k) = true := by
        rcases List.any_eq_true.mp h with ⟨x, hx, hxk⟩
        rcases List.mem_cons.mp hx with rfl | hxt
        · exact absurd (by simpa using hxk) ha
        · exact List.any_eq_true.mpr ⟨x, hxt, hxk⟩
      simp [dictGet, ha, ih ht]

theorem dictGet_appendSingleton (d : List (String × String)) (k v q : String) :
    dictGet (d ++ [(k, v)]) q =
      if dictGet d q = none then (if k = q then some v else none)
      else dictGet d q := by
  induction d with
  | nil => simp [dictGet]
  | cons p t ih =>
    by_cases hp : p.1 = q
    · simp [dictGet, hp]
    · simp [dictGet, hp, ih]

theorem dictGet_dictSet (d : List (String × String)) (k v : String) :
    dictGet (dictSet d k v) k = some v := by
  unfold dictSet
  by_cases h : (d.any fun p => p.1 == k) = true
  · simp only [h, if_true]
    exact dictGet_setMap d k v h
  · simp only [h]
    have hnone : dictGet d k = none := by
      induction d with
      | nil => simp [dictGet]
      | cons p t ih =>
        have hp : ¬ p.1 = k := by
          intro hpk
          exact h (List.any_eq_true.mpr
            ⟨p, List.mem_cons_self p t, by simpa using hpk⟩)
        have ht : ¬ (t.any fun p => p.1 == k) = true := by
          intro hterm
          rcases List.any_eq_true.mp hterm with ⟨x, hx, hxk⟩
          exact h (List.any_eq_true.mpr ⟨x, List.mem_cons_of_mem p hx, hxk⟩)
        simp [dictGet, hp, ih ht]
    rw [show (if false = true then
          List.map (fun p => if p.1 = k then (k, v) else p) d
        else d ++ [(k, v)]) = d ++ [(k, v)] from by simp]
    rw [dictGet_appendSingleton, if_pos hnone, if_pos rfl]

theorem dictGet_mapNe (d : List (String × String)) (k v q : String)
    (hq : q ≠ k) :
    dictGet (d.map fun p => if p.1 = k then (k, v) else p) q = dictGet d q := by
  induction d with
  | nil => simp [dictGet]
  | cons p t ih =>
    by_cases ha : p.1 = k
    · have hpq : ¬ p.1 = q := fun e => hq (by rw [← e, ha])
      have hkq : ¬ k = q := fun e => hq e.symm
      simp [dictGet, ha, hpq, hkq, ih]
    · by_cases hpq : p.1 = q
      · simp [dictGet, ha, hpq, hq]
      · simp [dictGet, ha, hpq, ih]

theorem dictGet_dictSet_ne (d : List (String × String)) (k v q : String)
    (hq : q ≠ k) : dictGet (dictSet d k v) q = dictGet d q := by
  unfold dictSet
  by_cases h : (d.any fun p => p.1 == k) = true
  · simp only [h, if_true]
    exact dictGet_mapNe d k v q hq
  · simp only [h]
    rw [show (if false = true then
          List.map (fun p => if p.1 = k then (k, v) else p) d
        else d ++ [(k, v)]) = d ++ [(k, v)] from by simp]
    rw [dictGet_appendSingleton]
    by_cases hd : dictGet d q = none
    · rw [if_pos hd, if_neg (fun e => hq e.symm), hd]
    · rw [if_neg hd]

theorem stepsOf_append (l1 l2 : List Ev) :
    stepsOf (l1 ++ l2) = stepsOf l1 ++ stepsOf l2 := by
  simp [stepsOf, List.filterMap_append]

theorem attemptedOf_append (l1 l2 : List Ev) :
    attemptedOf (l1 ++ l2) = attemptedOf l1 ++ attemptedOf l2 := by
  simp [attemptedOf, List.filterMap_append]

theorem stepsOf_download (urlOk : String → Bool) (m : XModel)
    (urls : List String) :
    stepsOf (Xception.download_pretrained_weights urlOk m urls).2 = [] := by
  induction urls with
  | nil => rfl
  | cons u rest ih =>
    by_cases h : urlOk u = true
    · simp [Xception.download_pretrained_weights, Xception.tryLoadUrl, h,
        stepsOf]
    · simp only [Xception.download_pretrained_weights, Xception.tryLoadUrl,
        h, Bool.false_eq_true, if_neg, if_false]
      simpa [stepsOf] using ih

theorem missingImport_eq_none_siglip (e : Env)
    (h : Siglip.importsOk e = true) : Siglip.missingImport e = none := by
  simp only [Siglip.importsOk, Bool.and_eq_true] at h
  obtain ⟨⟨⟨⟨h1, h2⟩, h3⟩, h4⟩, h5⟩ := h
  simp [Siglip.missingImport, h1, h2, h3, h4, h5]

theorem missingImport_eq_none_deepfake (e : Env)
    (h : Deepfake.importsOk e = true) : Deepfake.missingImport e = none := by
  simp only [Deepfake.importsOk, Bool.and_eq_true] at h
  obtain ⟨⟨⟨⟨h1, h2⟩, h3⟩, h4⟩, h5⟩ := h
  simp [Deepfake.missingImport, h1, h2, h3, h4, h5]

theorem missingImport_eq_none_xception (e : Env)
    (h : Xception.importsOk e = true) : Xception.missingImport e = none := by
  simp only [Xception.importsOk, Bool.and_eq_true] at h
  obtain ⟨⟨⟨h1, h2⟩, h3⟩, h4⟩ := h
  simp [Xception.missingImport, h1, h2, h3, h4]

theorem sum_map_div (xs : List ℚ) (f : ℚ → ℚ) (c : ℚ) :
    (xs.map fun x => f x / c).sum = (xs.map f).sum / c := by
  induction xs with
  | nil => simp
  | cons a t ih => simp [ih, add_div]

theorem sum_map_pos (xs : List ℚ) (f : ℚ → ℚ) (hf : ∀ x, 0 < f x)
    (hne : xs ≠ []) : 0 < (xs.map f).sum := by
  cases xs with
  | nil => exact absurd rfl hne
  | cons a t =>
    have ht : 0 ≤ (t.map f).sum := by
      apply List.sum_nonneg
      intro x hx
      rcases List.mem_map.mp hx with ⟨y, _, rfl⟩
      exact (hf y).le
    simp only [List.map_cons, List.sum_cons]
    have := hf a
    linarith

theorem softmax_props (eexp : ℚ → ℚ) (he : ∀ x, 0 < eexp x) (xs : List ℚ)
    (hne : xs ≠ []) :
    (∀ p ∈ softmax eexp xs, 0 ≤ p ∧ p ≤ 1) ∧
      (softmax eexp xs).sum = 1 ∧
      (softmax eexp xs).length = xs.length := by
  have hS : 0 < (xs.map eexp).sum := sum_map_pos xs eexp he hne
  refine ⟨?_, ?_, by simp [softmax]⟩
  · intro p hp
    rcases List.mem_map.mp hp with ⟨x, hx, rfl⟩
    refine ⟨div_nonneg (he x).le hS.le, ?_⟩
    have hx2 : eexp x ≤ (xs.map eexp).sum := by
      apply List.single_le_sum
      · intro y hy
        rcases List.mem_map.mp hy with ⟨z, _, rfl⟩
        exact (he z).le
      · exact List.mem_map_of_mem eexp hx
    exact (div_le_one hS).mpr hx2
  · rw [softmax, sum_map_div, div_self (ne_of_gt hS)]

/-! Claim theorems. -/

/-- Claim C5: in both SigLIP-based scripts the ImageType constants
(scale 1/127.5, per-channel bias -1.0) exactly implement SigLIP
preprocessing: for every pixel value p and every one of the three channels,
scale * p + bias = (p / 255 - 0.5) / 0.5 over exact rationals. -/
theorem c5_siglip_normalization_exact (p : ℚ) :
    (applyImageType Siglip.scale Siglip.bias 0 p = siglipPreprocess p ∧
     applyImageType Siglip.scale Siglip.bias 1 p = siglipPreprocess p ∧
     applyImageType Siglip.scale Siglip.bias 2 p = siglipPreprocess p) ∧
    (applyImageType Deepfake.scale Deepfake.bias 0 p = siglipPreprocess p ∧
     applyImageType Deepfake.scale Deepfake.bias 1 p = siglipPreprocess p ∧
     applyImageType Deepfake.scale Deepfake.bias 2 p = siglipPreprocess p) := by
  refine ⟨⟨?_, ?_, ?_⟩, ⟨?_, ?_, ?_⟩⟩ <;>
  · simp only [applyImageType, Siglip.scale, Siglip.bias, Deepfake.scale,
      Deepfake.bias, siglipPreprocess, List.getD]
    norm_num
    ring_nf

/-- Claim C9: both deepfake scripts use OUTPUT_NAME "DeepfakeDetector" and
build the identical save path "DeepfakeDetector.mlpackage" (relative to the
current working directory), so running one script after the other
overwrites the artifact saved by the other. -/
theorem c9_output_path_collision :
    Deepfake.OUTPUT_NAME = "DeepfakeDetector" ∧
    Xception.OUTPUT_NAME = "DeepfakeDetector" ∧
    Deepfake.output_path = Xception.output_path ∧
    Deepfake.output_path = "DeepfakeDetector.mlpackage" :=
  ⟨rfl, rfl, rfl, rfl⟩

/-- Claim C10: the XceptionNet script installs a single shared scale
1/(255*0.226) with per-channel biases -mean/std, and this transform differs
from the exact per-channel ImageNet normalization (p/255 - mean_c)/std_c
with stds 0.229, 0.224, 0.225 at some channel and pixel value: the
preprocessing is only approximate. -/
theorem c10_xception_normalization_approximate :
    Xception.scale = 1 / (255 * 0.226) ∧
    Xception.bias = [-0.485 / 0.229, -0.456 / 0.224, -0.406 / 0.225] ∧
    ∃ c, c < 3 ∧ ∃ p : ℚ,
      applyImageType Xception.scale Xception.bias c p ≠ imagenetExactNorm c p := by
  refine ⟨rfl, rfl, 0, by norm_num, 255, ?_⟩
  simp only [applyImageType, Xception.scale, Xception.bias,
    imagenetExactNorm, List.getD]
  norm_num

/-- Claim C7 (counterexample): the XceptionNet finalize_model, applied to
the freshly converted model exactly as in main, embeds no source_model
entry at all — the claim that every script embeds the model identifier
fails there (the script has no model-identifier constant to embed). -/
theorem c7_counterexample :
    dictGet (Xception.finalize_model freshMLModel).user_defined_metadata
      "source_model" = none := by
  rfl

/-- Claim C7 (amended): the two SigLIP scripts embed author, license,
version, source_model and input_size in the saved package; the XceptionNet
script embeds author, license, version, input_size, class_labels,
training_data and output_format, but writes no source_model entry (its
user metadata keeps whatever source_model entry the incoming model had,
which for the freshly converted model is none). -/
theorem c7_metadata_amended (m : MLModelMeta) (cls : List String) :
    ((Siglip.finalize_model m cls).author = "A-IQ App" ∧
     (Siglip.finalize_model m cls).license = "Apache 2.0" ∧
     (Siglip.finalize_model m cls).version = "2.0.0" ∧
     dictGet (Siglip.finalize_model m cls).user_defined_metadata
       "source_model" = some Siglip.MODEL_ID ∧
     dictGet (Siglip.finalize_model m cls).user_defined_metadata
       "input_size" = some "224") ∧
    ((Deepfake.finalize_model m cls).author = "A-IQ App" ∧
     (Deepfake.finalize_model m cls).license = "Apache 2.0" ∧
     (Deepfake.finalize_model m cls).version = "1.0.0" ∧
     dictGet (Deepfake.finalize_model m cls).user_defined_metadata
       "source_model" = some Deepfake.MODEL_ID ∧
     dictGet (Deepfake.finalize_model m cls).user_defined_metadata
       "input_size" = some "512") ∧
    ((Xception.finalize_model m).author = "A-IQ App" ∧
     (Xception.finalize_model m).license = "Research use" ∧
     (Xception.finalize_model m).version = "1.0.0" ∧
     dictGet (Xception.finalize_model m).user_defined_metadata
       "input_size" = some "299" ∧
     dictGet (Xception.finalize_model m).user_defined_metadata
       "class_labels" = some "Real,Fake" ∧
     dictGet (Xception.finalize_model m).user_defined_metadata
       "training_data" = some "FaceForensics++" ∧
     dictGet (Xception.finalize_model m).user_defined_metadata
       "source_model" = dictGet m.user_defined_metadata "source_model") := by
  refine ⟨⟨rfl, rfl, rfl, ?_, ?_⟩, ⟨rfl, rfl, rfl, ?_, ?_⟩,
    ⟨rfl, rfl, rfl, ?_, ?_, ?_, ?_⟩⟩
  · simp only [Siglip.finalize_model]
    rw [dictGet_dictSet_ne _ _ _ _ (by decide)]
    exact dictGet_dictSet _ _ _
  · simp only [Siglip.finalize_model]
    exact dictGet_dictSet _ _ _
  · simp only [Deepfake.finalize_model]
    rw [dictGet_dictSet_ne _ _ _ _ (by decide)]
    exact dictGet_dictSet _ _ _
  · simp only [Deepfake.finalize_model]
    exact dictGet_dictSet _ _ _
  · simp only [Xception.finalize_model]
    rw [dictGet_dictSet_ne _ _ _ _ (by decide)]
    exact dictGet_dictSet _ _ _
  · simp only [Xception.finalize_model]
    rw [dictGet_dictSet_ne _ _ _ _ (by decide),
      dictGet_dictSet_ne _ _ _ _ (by decide),
      dictGet_dictSet_ne _ _ _ _ (by decide)]
    exact dictGet_dictSet _ _ _
  · simp only [Xception.finalize_model]
    rw [dictGet_dictSet_ne _ _ _ _ (by decide),
      dictGet_dictSet_ne _ _ _ _ (by decide)]
    exact dictGet_dictSet _ _ _
  · simp only [Xception.finalize_model]
    rw [dictGet_dictSet_ne _ _ _ _ (by decide),
      dictGet_dictSet_ne _ _ _ _ (by decide),
      dictGet_dictSet_ne _ _ _ _ (by decide),
      dictGet_dictSet_ne _ _ _ _ (by decide)]

/-- Claim C8: in both SigLIP scripts the class-label list is the
comprehension over range(len(id2label)), so its i-th entry is the label of
class index i, and the class_labels metadata entry is the comma-join of
exactly that index-ordered list. -/
theorem c8_class_label_order (f : Nat → String) (n i : Nat) (h : i < n)
    (m : MLModelMeta) :
    (class_labels_from f n).length = n ∧
    (class_labels_from f n).getD i "" = f i ∧
    dictGet (Siglip.finalize_model m
        (class_labels_from f n)).user_defined_metadata "class_labels"
      = some (String.intercalate "," (class_labels_from f n)) ∧
    dictGet (Deepfake.finalize_model m
        (class_labels_from f n)).user_defined_metadata "class_labels"
      = some (String.intercalate "," (class_labels_from f n)) := by
  refine ⟨by simp [class_labels_from], ?_, ?_, ?_⟩
  · rw [class_labels_from, List.getD_eq_getElem?_getD]
    simp [List.getElem?_map, List.getElem?_range, h]
  · simp only [Siglip.finalize_model]
    rw [dictGet_dictSet_ne _ _ _ _ (by decide),
      dictGet_dictSet_ne _ _ _ _ (by decide)]
    exact dictGet_dictSet _ _ _
  · simp only [Deepfake.finalize_model]
    rw [dictGet_dictSet_ne _ _ _ _ (by decide),
      dictGet_dictSet_ne _ _ _ _ (by decide)]
    exact dictGet_dictSet _ _ _

/-- Claim C8 witness: the label-order theorem evaluated for a concrete
two-class id2label at index 1. -/
theorem c8_class_label_order_witness :
    (class_labels_from (fun i => if i = 0 then "ai" else "hum") 2).getD 1 ""
      = "hum" :=
  (c8_class_label_order (fun i => if i = 0 then "ai" else "hum") 2 1
    (by norm_num) freshMLModel).2.1

/-- Claim C4: the forward of each wrapper module returns the softmax of the
wrapped model logits, so for every input the returned vector has every
entry in [0, 1], sums to 1, and has the length of the logits vector (the
number of classes).  The exponential of torch softmax is abstracted as any
strictly positive function; the logits vector is assumed nonempty (every
converted model has at least one class). -/
theorem c4_wrapper_forward_softmax {α : Type} (eexp : ℚ → ℚ)
    (he : ∀ x, 0 < eexp x) (w1 : SigLIPWrapper α) (w2 : DeepfakeWrapper α)
    (w3 : XceptionWrapper α) (v : α)
    (h1 : w1.model.logits v ≠ []) (h2 : w2.model.logits v ≠ [])
    (h3 : w3.model.logits v ≠ []) :
    (w1.forward eexp v = softmax eexp (w1.model.logits v) ∧
     (∀ p ∈ w1.forward eexp v, 0 ≤ p ∧ p ≤ 1) ∧
     (w1.forward eexp v).sum = 1 ∧
     (w1.forward eexp v).length = (w1.model.logits v).length) ∧
    (w2.forward eexp v = softmax eexp (w2.model.logits v) ∧
     (∀ p ∈ w2.forward eexp v, 0 ≤ p ∧ p ≤ 1) ∧
     (w2.forward eexp v).sum = 1 ∧
     (w2.forward eexp v).length = (w2.model.logits v).length) ∧
    (w3.forward eexp v = softmax eexp (w3.model.logits v) ∧
     (∀ p ∈ w3.forward eexp v, 0 ≤ p ∧ p ≤ 1) ∧
     (w3.forward eexp v).sum = 1 ∧
     (w3.forward eexp v).length = (w3.model.logits v).length) := by
  have p1 := softmax_props eexp he (w1.model.logits v) h1
  have p2 := softmax_props eexp he (w2.model.logits v) h2
  have p3 := softmax_props eexp he (w3.model.logits v) h3
  exact ⟨⟨rfl, p1.1, p1.2.1, p1.2.2⟩, ⟨rfl, p2.1, p2.2.1, p2.2.2⟩,
    ⟨rfl, p3.1, p3.2.1, p3.2.2⟩⟩

/-- Claim C4 witness: for the constant exponential 1 and two-class zero
logits, each wrapper forward returns [1/2, 1/2], which sums to 1. -/
theorem c4_wrapper_forward_softmax_witness :
    (SigLIPWrapper.forward (α := Unit) ⟨⟨fun _ => [0, 0]⟩⟩ (fun _ => 1)
      ()).sum = 1 ∧
    (DeepfakeWrapper.forward (α := Unit) ⟨⟨fun _ => [0, 0]⟩⟩ (fun _ => 1)
      ()).sum = 1 ∧
    (XceptionWrapper.forward (α := Unit) ⟨⟨fun _ => [0, 0]⟩⟩ (fun _ => 1)
      ()).sum = 1 := by
  have h := c4_wrapper_forward_softmax (α := Unit) (fun _ => 1)
    (fun _ => by norm_num) ⟨⟨fun _ => [0, 0]⟩⟩ ⟨⟨fun _ => [0, 0]⟩⟩
    ⟨⟨fun _ => [0, 0]⟩⟩ () (by simp) (by simp) (by simp)
  exact ⟨h.1.2.2.1, h.2.1.2.2.1, h.2.2.2.2.1⟩

theorem download_attempts_take (urlOk : String → Bool) (m : XModel)
    (urls : List String) :
    ∃ k, attemptedOf (Xception.download_pretrained_weights urlOk m urls).2
      = urls.take k := by
  induction urls with
  | nil => exact ⟨0, by simp [Xception.download_pretrained_weights,
      Xception.downloadWarning, attemptedOf]⟩
  | cons u rest ih =>
    by_cases h : urlOk u = true
    · exact ⟨1, by simp [Xception.download_pretrained_weights,
        Xception.tryLoadUrl, h, attemptedOf]⟩
    · obtain ⟨k, hk⟩ := ih
      refine ⟨k + 1, ?_⟩
      simp only [Xception.download_pretrained_weights, Xception.tryLoadUrl,
        h, Bool.false_eq_true, if_false]
      simpa [attemptedOf] using hk

theorem download_failure_logged (urlOk : String → Bool) (m : XModel)
    (urls : List String) (u : String)
    (hu : u ∈ attemptedOf (Xception.download_pretrained_weights urlOk m urls).2)
    (hf : urlOk u = false) :
    Ev.urlFail u ∈ (Xception.download_pretrained_weights urlOk m urls).2 := by
  induction urls with
  | nil =>
    simp [Xception.download_pretrained_weights, Xception.downloadWarning,
      attemptedOf] at hu
  | cons w rest ih =>
    by_cases h : urlOk w = true
    · simp [Xception.download_pretrained_weights, Xception.tryLoadUrl, h,
        attemptedOf] at hu
      rw [hu] at hf
      rw [hf] at h
      exact absurd h (by simp)
    · simp only [Xception.download_pretrained_weights, Xception.tryLoadUrl,
        h, Bool.false_eq_true, if_false] at hu ⊢
      have hlog : attemptedOf (Ev.tryUrl w :: Ev.urlFail w ::
          (Xception.download_pretrained_weights urlOk m rest).2)
          = w :: attemptedOf
            (Xception.download_pretrained_weights urlOk m rest).2 := by
        simp [attemptedOf]
      rw [hlog] at hu
      rcases List.mem_cons.mp hu with rfl | hrest
      · simp
      · simp [List.mem_cons, ih hrest]

theorem download_all_fail (urlOk : String → Bool) (m : XModel)
    (urls : List String) (hall : ∀ u ∈ urls, urlOk u = false) :
    (Xception.download_pretrained_weights urlOk m urls).1 = m ∧
    ∃ l, (Xception.download_pretrained_weights urlOk m urls).2
      = l ++ Xception.downloadWarning := by
  induction urls with
  | nil => exact ⟨rfl, [], rfl⟩
  | cons u rest ih =>
    have hu : urlOk u = false := hall u (List.mem_cons_self u rest)
    obtain ⟨h1, l, h2⟩ := ih (fun w hw => hall w (List.mem_cons_of_mem u hw))
    refine ⟨?_, Ev.tryUrl u :: Ev.urlFail u :: l, ?_⟩ <;>
      simp [Xception.download_pretrained_weights, Xception.tryLoadUrl, hu,
        h1, h2]

/-- Claim C2: download_pretrained_weights attempts the candidate URLs at
most once each, in list order (the attempted URLs are a prefix of the
list, with no duplicates when the list has none); a failure for an
attempted URL is caught and logged as a Could-not-load line rather than
propagated; and when every candidate fails, the warning block is printed
and the unchanged baseline (ImageNet-pretrained) model is returned. -/
theorem c2_download_fallback (urlOk : String → Bool) (m : XModel)
    (urls : List String) :
    (∃ k, attemptedOf (Xception.download_pretrained_weights urlOk m urls).2
        = urls.take k) ∧
    (urls.Nodup →
      (attemptedOf
        (Xception.download_pretrained_weights urlOk m urls).2).Nodup) ∧
    (∀ u ∈ attemptedOf (Xception.download_pretrained_weights urlOk m urls).2,
      urlOk u = false →
        Ev.urlFail u ∈ (Xception.download_pretrained_weights urlOk m urls).2) ∧
    ((∀ u ∈ urls, urlOk u = false) →
      (Xception.download_pretrained_weights urlOk m urls).1 = m ∧
      ∃ l, (Xception.download_pretrained_weights urlOk m urls).2
        = l ++ Xception.downloadWarning) := by
  refine ⟨download_attempts_take urlOk m urls, ?_, ?_, ?_⟩
  · intro hnd
    obtain ⟨k, hk⟩ := download_attempts_take urlOk m urls
    rw [hk]
    exact hnd.sublist (List.take_sublist k urls)
  · intro u hu hf
    exact download_failure_logged urlOk m urls u hu hf
  · intro hall
    exact download_all_fail urlOk m urls hall

/-- Claim C2 witness: with the downloads all failing, the function applied
to the baseline model and the actual URL list of the script returns that
baseline model unchanged. -/
theorem c2_download_fallback_witness :
    (Xception.download_pretrained_weights (fun _ => false)
      ⟨BaseArch.timmXception, none⟩ Xception.weight_urls).1
      = ⟨BaseArch.timmXception, none⟩ :=
  ((c2_download_fallback (fun _ => false) ⟨BaseArch.timmXception, none⟩
      Xception.weight_urls).2.2.2 (fun _ _ => rfl)).1

theorem stepsOf_verifyLog_siglip (b : Bool) :
    stepsOf (Siglip.verifyLog b) = [] := by
  cases b <;> rfl

theorem stepsOf_verifyLog_deepfake (b : Bool) :
    stepsOf (Deepfake.verifyLog b) = [] := by
  cases b <;> rfl

theorem stepsOf_verifyLog_xception (b : Bool) :
    stepsOf (Xception.verifyLog b) = [] := by
  cases b <;> rfl

/-- An environment with every library present, all downloads failing, and a
clean smoke test. -/
def envAllPresent : Env :=
  { coremltools := true, numpy := true, torch := true, pillow := true,
    transformers := true, torchvision := true, timm := true,
    urlOk := fun _ => false, smokeTestThrows := false }

/-- An environment with every library present and a smoke test that raises. -/
def envSmokeThrows : Env :=
  { coremltools := true, numpy := true, torch := true, pillow := true,
    transformers := true, torchvision := true, timm := true,
    urlOk := fun _ => false, smokeTestThrows := true }

/-- An environment where only timm is missing. -/
def envTimmMissing : Env :=
  { coremltools := true, numpy := true, torch := true, pillow := true,
    transformers := true, torchvision := true, timm := false,
    urlOk := fun _ => false, smokeTestThrows := false }

/-- Claim C3: in every script the post-save smoke test is wrapped in
try/except: with all needed libraries present the process exits 0 whether
or not the smoke test raises, the SUCCESS banner is printed in every case
(it is emitted before the verification even starts), and a raising smoke
test only adds a printed verification warning. -/
theorem c3_smoke_test_nonfatal (e : Env)
    (hs : Siglip.importsOk e = true) (hd : Deepfake.importsOk e = true)
    (hx : Xception.importsOk e = true)
    (hm : (e.timm || e.torchvision) = true) :
    ((Siglip.run e).1 = 0 ∧ Ev.out "SUCCESS!" ∈ (Siglip.run e).2 ∧
      (e.smokeTestThrows = true →
        Ev.out "Verification warning: <exception>" ∈ (Siglip.run e).2)) ∧
    ((Deepfake.run e).1 = 0 ∧ Ev.out "SUCCESS!" ∈ (Deepfake.run e).2 ∧
      (e.smokeTestThrows = true →
        Ev.out "Verification warning: <exception>" ∈ (Deepfake.run e).2)) ∧
    ((Xception.run e).1 = 0 ∧ Ev.out "SUCCESS!" ∈ (Xception.run e).2 ∧
      (e.smokeTestThrows = true →
        Ev.out "Verification warning: <exception>" ∈ (Xception.run e).2)) := by
  have hrs : Siglip.run e = (0, Siglip.mainLog e) := by
    simp [Siglip.run, missingImport_eq_none_siglip e hs]
  have hrd : Deepfake.run e = (0, Deepfake.mainLog e) := by
    simp [Deepfake.run, missingImport_eq_none_deepfake e hd]
  refine ⟨?_, ?_, ?_⟩
  · rw [hrs]
    refine ⟨rfl, ?_, ?_⟩
    · simp [Siglip.mainLog, Siglip.verifyLog]
    · intro ht
      simp [Siglip.mainLog, Siglip.verifyLog, ht]
  · rw [hrd]
    refine ⟨rfl, ?_, ?_⟩
    · simp [Deepfake.mainLog, Deepfake.verifyLog]
    · intro ht
      simp [Deepfake.mainLog, Deepfake.verifyLog, ht]
  · have hmx := missingImport_eq_none_xception e hx
    cases htimm : e.timm with
    | true =>
      simp only [Xception.run, hmx, Xception.create_xceptionnet_model, htimm,
        if_true]
      refine ⟨trivial, ?_, ?_⟩
      · simp [Xception.tailLog, Xception.verifyLog]
      · intro ht
        simp [Xception.tailLog, Xception.verifyLog, ht]
    | false =>
      have htv : e.torchvision = true := by
        simpa [htimm] using hm
      simp only [Xception.run, hmx, Xception.create_xceptionnet_model, htimm,
        htv, Bool.false_eq_true, if_false, if_true]
      refine ⟨trivial, ?_, ?_⟩
      · simp [Xception.tailLog, Xception.verifyLog]
      · intro ht
        simp [Xception.tailLog, Xception.verifyLog, ht]

/-- Claim C3 witness: the smoke-test theorem evaluated in the concrete
environment whose smoke test raises. -/
theorem c3_smoke_test_nonfatal_witness :
    (Siglip.run envSmokeThrows).1 = 0 ∧
    Ev.out "SUCCESS!" ∈ (Siglip.run envSmokeThrows).2 ∧
    Ev.out "Verification warning: <exception>" ∈ (Siglip.run envSmokeThrows).2 ∧
    (Xception.run envSmokeThrows).1 = 0 ∧
    Ev.out "SUCCESS!" ∈ (Xception.run envSmokeThrows).2 := by
  have h := c3_smoke_test_nonfatal envSmokeThrows rfl rfl rfl rfl
  exact ⟨h.1.1, h.1.2.1, h.1.2.2 rfl, h.2.2.1, h.2.2.2.1⟩

/-- The pipeline of the spec: fetch, wrap, trace, convert, annotate, save,
smoke-test, in this order with no step skipped, reordered or repeated. -/
def specPipeline : List Step :=
  [Step.fetch, Step.wrap, Step.traceModel, Step.convertModel, Step.annotate,
   Step.saveModel, Step.smokeTest]

/-- Claim C6: with all needed libraries present, each script emits exactly
the pipeline phases fetch, wrap, trace, convert, annotate, save, smoke-test
in this order: no phase is skipped, reordered, or repeated. -/
theorem c6_linear_pipeline (e : Env)
    (hs : Siglip.importsOk e = true) (hd : Deepfake.importsOk e = true)
    (hx : Xception.importsOk e = true)
    (hm : (e.timm || e.torchvision) = true) :
    stepsOf (Siglip.run e).2 = specPipeline ∧
    stepsOf (Deepfake.run e).2 = specPipeline ∧
    stepsOf (Xception.run e).2 = specPipeline := by
  have hrs : Siglip.run e = (0, Siglip.mainLog e) := by
    simp [Siglip.run, missingImport_eq_none_siglip e hs]
  have hrd : Deepfake.run e = (0, Deepfake.mainLog e) := by
    simp [Deepfake.run, missingImport_eq_none_deepfake e hd]
  have hmx := missingImport_eq_none_xception e hx
  refine ⟨?_, ?_, ?_⟩
  · rw [hrs]
    show stepsOf (Siglip.mainLog e) = specPipeline
    rw [Siglip.mainLog, stepsOf_append, stepsOf_verifyLog_siglip]
    rfl
  · rw [hrd]
    show stepsOf (Deepfake.mainLog e) = specPipeline
    rw [Deepfake.mainLog, stepsOf_append, stepsOf_verifyLog_deepfake]
    rfl
  · have htail : stepsOf (Xception.tailLog e) =
        [Step.wrap, Step.traceModel, Step.convertModel, Step.annotate,
         Step.saveModel, Step.smokeTest] := by
      rw [Xception.tailLog, stepsOf_append, stepsOf_verifyLog_xception]
      rfl
    cases htimm : e.timm with
    | true =>
      simp only [Xception.run, hmx, Xception.create_xceptionnet_model, htimm,
        if_true]
      rw [stepsOf_append, stepsOf_append, stepsOf_append, stepsOf_append,
        stepsOf_download, htail]
      rfl
    | false =>
      have htv : e.torchvision = true := by
        simpa [htimm] using hm
      simp only [Xception.run, hmx, Xception.create_xceptionnet_model, htimm,
        htv, Bool.false_eq_true, if_false, if_true]
      rw [stepsOf_append, stepsOf_append, stepsOf_append, stepsOf_append,
        stepsOf_download, htail]
      rfl

/-- Claim C6 witness: the pipeline theorem evaluated in the concrete
all-libraries-present environment. -/
theorem c6_linear_pipeline_witness :
    stepsOf (Siglip.run envAllPresent).2 = specPipeline ∧
    stepsOf (Deepfake.run envAllPresent).2 = specPipeline ∧
    stepsOf (Xception.run envAllPresent).2 = specPipeline :=
  c6_linear_pipeline envAllPresent rfl rfl rfl rfl

/-- Claim C1 (counterexample): timm is a listed requirement of the
XceptionNet script, yet in the environment where only timm is missing the
process does not terminate with a non-zero status: it falls back to
torchvision and exits 0. -/
theorem c1_counterexample :
    envTimmMissing.timm = false ∧ (Xception.run envTimmMissing).1 = 0 :=
  ⟨rfl, rfl⟩

/-- Claim C1 (amended): a missing top-level dependency (coremltools, numpy,
torch, pillow, and for the SigLIP scripts transformers) terminates each
script with exit status 1 and an uncaught-ImportError message naming the
module (the hand-written ERROR message inside main is unreachable, since
coremltools is already imported at module level); with all top-level
imports present each script exits 0.  timm, however, is optional for the
XceptionNet script: when timm is missing but torchvision is present the
script prints a fallback notice and still exits 0; only when both are
missing does it abort with status 1. -/
theorem c1_missing_dependency_amended (e : Env) :
    (∀ m, Siglip.missingImport e = some m →
      (Siglip.run e).1 = 1 ∧
      Ev.err ("ModuleNotFoundError: No module named " ++ m)
        ∈ (Siglip.run e).2) ∧
    (∀ m, Deepfake.missingImport e = some m →
      (Deepfake.run e).1 = 1 ∧
      Ev.err ("ModuleNotFoundError: No module named " ++ m)
        ∈ (Deepfake.run e).2) ∧
    (∀ m, Xception.missingImport e = some m →
      (Xception.run e).1 = 1 ∧
      Ev.err ("ModuleNotFoundError: No module named " ++ m)
        ∈ (Xception.run e).2) ∧
    (Siglip.importsOk e = true → (Siglip.run e).1 = 0) ∧
    (Deepfake.importsOk e = true → (Deepfake.run e).1 = 0) ∧
    (Xception.importsOk e = true → (e.timm || e.torchvision) = true →
      (Xception.run e).1 = 0) ∧
    (Xception.importsOk e = true → e.timm = false → e.torchvision = true →
      (Xception.run e).1 = 0 ∧
      Ev.out "timm not available, using torchvision Inception as fallback"
        ∈ (Xception.run e).2) ∧
    (Xception.importsOk e = true → e.timm = false → e.torchvision = false →
      (Xception.run e).1 = 1 ∧
      Ev.err "ModuleNotFoundError: No module named torchvision"
        ∈ (Xception.run e).2) := by
  refine ⟨?_, ?_, ?_, ?_, ?_, ?_, ?_, ?_⟩
  · intro m hm
    simp [Siglip.run, hm]
  · intro m hm
    simp [Deepfake.run, hm]
  · intro m hm
    simp [Xception.run, hm]
  · intro h
    simp [Siglip.run, missingImport_eq_none_siglip e h]
  · intro h
    simp [Deepfake.run, missingImport_eq_none_deepfake e h]
  · intro h hm
    have hmx := missingImport_eq_none_xception e h
    cases htimm : e.timm with
    | true =>
      simp [Xception.run, hmx, Xception.create_xceptionnet_model, htimm]
    | false =>
      have htv : e.torchvision = true := by
        simpa [htimm] using hm
      simp [Xception.run, hmx, Xception.create_xceptionnet_model, htimm, htv]
  · intro h htimm htv
    have hmx := missingImport_eq_none_xception e h
    simp only [Xception.run, hmx, Xception.create_xceptionnet_model, htimm,
      htv, Bool.false_eq_true, if_false, if_true]
    exact ⟨trivial, by simp⟩
  · intro h htimm htv
    have hmx := missingImport_eq_none_xception e h
    simp only [Xception.run, hmx, Xception.create_xceptionnet_model, htimm,
      htv, Bool.false_eq_true, if_false]
    exact ⟨trivial, by simp⟩

/-- Claim C1 witness: the amended theorem evaluated in concrete
environments: with everything installed all three scripts exit 0, with
coremltools missing the SigLIP script exits 1, and with only timm missing
the XceptionNet script prints the fallback notice and exits 0. -/
theorem c1_missing_dependency_amended_witness :
    (Siglip.run envAllPresent).1 = 0 ∧
    (Deepfake.run envAllPresent).1 = 0 ∧
    (Xception.run envAllPresent).1 = 0 ∧
    (Siglip.run { envAllPresent with coremltools := false }).1 = 1 ∧
    ((Xception.run envTimmMissing).1 = 0 ∧
      Ev.out "timm not available, using torchvision Inception as fallback"
        ∈ (Xception.run envTimmMissing).2) :=
  ⟨(c1_missing_dependency_amended envAllPresent).2.2.2.1 rfl,
   (c1_missing_dependency_amended envAllPresent).2.2.2.2.1 rfl,
   (c1_missing_dependency_amended envAllPresent).2.2.2.2.2.1 rfl rfl,
   ((c1_missing_dependency_amended
      { envAllPresent with coremltools := false }).1 "coremltools" rfl).1,
   (c1_missing_dependency_amended envTimmMissing).2.2.2.2.2.2.1 rfl rfl rfl⟩
